import Mathlib

/-!
# Verification of the Contract Model Engine of the data-contract creator

Shallow embedding of `src/main.rs` of hellarcore/data-contract-creator:
the typed tree (`DocumentType`, `Property`, `Index`, `IndexProperties`),
the exporter (`generate_json_object`, `generate_nested_properties`), the
importer (`parse_imported_json`) and the editor operations the claims
refer to (`Msg::UpdatePropertyType`, `Msg::Clear`, `Msg::UpdatePropertyName`,
`default_additional_properties`).

Modelling conventions:
* `serde_json::Value` is modelled by `Json`; objects are association lists
  that keep insertion order, numbers are integers (all numeric fields of the
  program are integral; floats never reach the model because `as_u64`/`as_i64`
  return `None` on them, which `Json.asU64`/`Json.asI64` reproduce by
  restricting `Json.num` to integers).
* `u32`/`i32` stores are `Nat`/`Int`; the `as u32` / `as i32` casts performed
  by the importer are made explicit (`u32cast`, `i32cast`).
* Rust panics (`unwrap` on a wrongly-typed JSON value, unknown `"type"` tag)
  are modelled by `Option`: `none` is a panic, propagated by the monad.
* `Model` keeps the four fields the claims are about (`document_types`,
  `json_object`, `imported_json`, `error_messages`); `json_object` holds the
  (name, body) pairs rather than their serialized strings, since no claim
  inspects string serialization.
* `serde_json::from_str::<HashMap<String, Value>>(&self.imported_json)` is an
  external parser; `parseImportedJson` therefore takes its result as an
  `Option (List (String × Json))` argument (`none` = parse failure).
-/

namespace DCC

/-- JSON values (`serde_json::Value`), with objects as insertion-ordered
association lists and numbers restricted to integers. -/
inductive Json where
  | null : Json
  | bool : Bool → Json
  | num : Int → Json
  | str : String → Json
  | arr : List Json → Json
  | obj : List (String × Json) → Json

/-- Models `Map::insert`: replace the value in place if the key is present,
otherwise append the binding. -/
def jsonInsert : List (String × Json) → String → Json → List (String × Json)
  | [], k, v => [(k, v)]
  | (k', v') :: rest, k, v =>
      if k' = k then (k, v) :: rest else (k', v') :: jsonInsert rest k v

/-- Models `Value::as_str`. -/
def Json.asStr : Json → Option String
  | .str s => some s
  | _ => none

/-- Models `Value::as_bool`. -/
def Json.asBool : Json → Option Bool
  | .bool b => some b
  | _ => none

/-- Models `Value::as_u64`: the number must be an integer representable as `u64`. -/
def Json.asU64 : Json → Option Nat
  | .num n => if 0 ≤ n ∧ n < 2 ^ 64 then some n.toNat else none
  | _ => none

/-- Models `Value::as_i64`: the number must be an integer representable as `i64`. -/
def Json.asI64 : Json → Option Int
  | .num n => if -(2 ^ 63) ≤ n ∧ n < 2 ^ 63 then some n else none
  | _ => none

/-- Models `Value::is_object` (used as `as_object().is_some()` on the control path). -/
def Json.isObj : Json → Bool
  | .obj _ => true
  | _ => false

/-- Models `num as u32` for `num : u64`: keep the low 32 bits. -/
def u32cast (n : Nat) : Nat := n % 2 ^ 32

/-- Models `num as i32` for `num : i64`: keep the low 32 bits, twos complement. -/
def i32cast (n : Int) : Int := (n + 2 ^ 31) % 2 ^ 32 - 2 ^ 31

/-- Models `enum DataType` from main.rs. -/
inductive DataType where
  | String
  | Integer
  | Array
  | Object
  | Number
  | Boolean
deriving DecidableEq, Repr

/-- The fields of `struct Property`, parametrized by the type of the nested
`properties` list so that `Property` can close the recursion. Defaults are
the `#[derive(Default)]` values. -/
structure PropertyCore (P : Type) where
  name : String := ""
  data_type : DataType := DataType.String
  required : Bool := false
  description : Option String := none
  comment : Option String := none
  min_length : Option Nat := none
  max_length : Option Nat := none
  pattern : Option String := none
  format : Option String := none
  minimum : Option Int := none
  maximum : Option Int := none
  byte_array : Option Bool := none
  min_items : Option Nat := none
  max_items : Option Nat := none
  content_media_type : Option String := none
  properties : Option (List P) := none
  min_properties : Option Nat := none
  max_properties : Option Nat := none
  rec_required : Option (List String) := none
  additional_properties : Option Bool := none

/-- Models `struct Property` (recursive through the `properties` field). -/
inductive Property where
  | mk : PropertyCore Property → Property

/-- Projection to the field record. -/
def Property.core : Property → PropertyCore Property
  | .mk c => c

/-- Models `Property::default()`. -/
def Property.default : Property := Property.mk {}

/-- Models `struct IndexProperties(String, String)`: field name and sort order. -/
structure IndexProperties where
  fst : String
  snd : String

/-- Models `IndexProperties::default()`: empty field name, `"asc"` sort order. -/
def IndexProperties.default : IndexProperties := ⟨"", "asc"⟩

/-- Models `struct Index`. -/
structure Index where
  name : String := ""
  properties : List IndexProperties := []
  unique : Bool := false

/-- Models `struct DocumentType`. -/
structure DocumentType where
  name : String := ""
  properties : List Property := []
  indices : List Index := []
  required : List String := []
  created_at_required : Bool := false
  updated_at_required : Bool := false
  additionalProperties : Bool := false
  comment : String := ""

/-- Models `DocumentType::default()`. -/
def DocumentType.default : DocumentType := {}

/-- The `Model` state restricted to the fields the claims concern. -/
structure Model where
  document_types : List DocumentType := []
  json_object : List (String × Json) := []
  imported_json : String := ""
  error_messages : List String := []

/-- Models `Model::create`: one default document type, everything else empty. -/
def initModel : Model := { document_types := [DocumentType.default] }

/-! ## Exporter (`generate_json_object`, `generate_nested_properties`) -/

/-- The `"type"` string emitted for a `DataType` (main.rs:1102-1109). -/
def dataTypeStr : DataType → String
  | .String => "string"
  | .Integer => "integer"
  | .Array => "array"
  | .Object => "object"
  | .Number => "number"
  | .Boolean => "boolean"

/-- An optional-string field emitted only when present and non-empty
(the `prop.field.as_ref().map(|c| c.len()).unwrap_or(0) > 0` test). -/
def strField (k : String) : Option String → List (String × Json)
  | some s => if s.length > 0 then [(k, Json.str s)] else []
  | none => []

/-- An optional-string field emitted whenever present, empty or not
(the `prop.field.is_some()` test used for the top-level `contentMediaType`,
main.rs:1140). -/
def someStrField (k : String) : Option String → List (String × Json)
  | some s => [(k, Json.str s)]
  | none => []

/-- An optional `u32` field emitted whenever present. -/
def natField (k : String) : Option Nat → List (String × Json)
  | some n => [(k, Json.num (Int.ofNat n))]
  | none => []

/-- An optional `i32` field emitted whenever present. -/
def intField (k : String) : Option Int → List (String × Json)
  | some n => [(k, Json.num n)]
  | none => []

/-- An optional `bool` field emitted whenever present
(`if let Some(byte_array) = prop.byte_array`, main.rs:1131). -/
def boolField (k : String) : Option Bool → List (String × Json)
  | some b => [(k, Json.bool b)]
  | none => []

/-- The object-property `"required"` field: emitted when `rec_required` holds
a non-empty list (`rec_required.as_ref().map(|c| c.len()).unwrap_or_default() > 0`,
main.rs:1153). -/
def reqField (k : String) (v : Option (List String)) : List (String × Json) :=
  if (v.getD []).length > 0 then [(k, Json.arr ((v.getD []).map Json.str))] else []

/-- A field emitted under a boolean condition (the `data_type == Object`
guards of main.rs:1143/1156). -/
def condField (c : Bool) (k : String) (v : Json) : List (String × Json) :=
  if c then [(k, v)] else []

/-- Body of one nested property (`generate_nested_properties` loop body,
main.rs:1238-1294), in source emission order. A nested `Object` property gets
the fixed placeholder `{"some_property": {"type": "string"}}`. -/
def exportNestedPropObj (rp : Property) : List (String × Json) :=
  let c := rp.core
  [("type", Json.str (dataTypeStr c.data_type))]
  ++ strField "description" c.description
  ++ natField "minLength" c.min_length
  ++ natField "maxLength" c.max_length
  ++ strField "pattern" c.pattern
  ++ strField "format" c.format
  ++ intField "minimum" c.minimum
  ++ intField "maximum" c.maximum
  ++ boolField "byteArray" c.byte_array
  ++ natField "minItems" c.min_items
  ++ natField "maxItems" c.max_items
  ++ strField "contentMediaType" c.content_media_type
  ++ condField (c.data_type = DataType.Object) "properties"
       (Json.obj [("some_property", Json.obj [("type", Json.str "string")])])
  ++ natField "minProperties" c.min_properties
  ++ natField "maxProperties" c.max_properties
  ++ condField (c.data_type = DataType.Object) "additionalProperties" (Json.bool false)
  ++ strField "$comment" c.comment

/-- One step of the `rec_required` bookkeeping of `generate_nested_properties`
(main.rs:1296-1304): add the nested name when its flag is set and it is
absent, remove it when the flag is clear and it is present. -/
def recRequiredStep (rr : Option (List String)) (rp : Property) : Option (List String) :=
  if rp.core.required then
    if rp.core.name ∈ rr.getD [] then rr else some (rr.getD [] ++ [rp.core.name])
  else
    if rp.core.name ∈ rr.getD [] then rr.map (·.filter (· ≠ rp.core.name)) else rr

/-- Models `generate_nested_properties` (main.rs:1234-1309): walk the nested
properties, building the nested map (each entry inserted twice, a no-op)
and updating the `rec_required` of the parent in place. Returns the updated
parent and the map. -/
def generateNestedProperties (p : Property) : Property × List (String × Json) :=
  match p.core.properties with
  | none => (p, [])
  | some nested =>
      let acc := nested.foldl
        (fun (acc : Option (List String) × List (String × Json)) rp =>
          let m1 := jsonInsert acc.2 rp.core.name (Json.obj (exportNestedPropObj rp))
          let rr1 := recRequiredStep acc.1 rp
          (rr1, jsonInsert m1 rp.core.name (Json.obj (exportNestedPropObj rp))))
        (p.core.rec_required, [])
      (Property.mk { p.core with rec_required := acc.1 }, acc.2)

/-- Body of one top-level property (`generate_json_object` inner loop,
main.rs:1101-1161), in source emission order, together with the property as
mutated by `generate_nested_properties` (only `rec_required` can change).
Note the two divergences from the nested exporter: `contentMediaType` is
emitted on `is_some()` (empty strings included), and the `"required"` field
comes from the possibly-updated `rec_required` (read on main.rs:1153 for every
data type, after the nested walk). -/
def exportProp (p : Property) : Property × List (String × Json) :=
  let c := p.core
  let pn := if c.data_type = DataType.Object then generateNestedProperties p else (p, [])
  (pn.1,
    [("type", Json.str (dataTypeStr c.data_type))]
    ++ strField "description" c.description
    ++ natField "minLength" c.min_length
    ++ natField "maxLength" c.max_length
    ++ strField "pattern" c.pattern
    ++ strField "format" c.format
    ++ intField "minimum" c.minimum
    ++ intField "maximum" c.maximum
    ++ boolField "byteArray" c.byte_array
    ++ natField "minItems" c.min_items
    ++ natField "maxItems" c.max_items
    ++ someStrField "contentMediaType" c.content_media_type
    ++ condField (c.data_type = DataType.Object) "properties" (Json.obj pn.2)
    ++ natField "minProperties" c.min_properties
    ++ natField "maxProperties" c.max_properties
    ++ reqField "required" pn.1.core.rec_required
    ++ condField (c.data_type = DataType.Object) "additionalProperties" (Json.bool false)
    ++ strField "$comment" c.comment)

/-- One step of the document-level `required` bookkeeping (main.rs:1163-1171):
push the property name when its flag is set and absent, retain it away when
the flag is clear and it is present. -/
def requiredStep (req : List String) (p : Property) : List String :=
  if p.core.required then
    if p.core.name ∈ req then req else req ++ [p.core.name]
  else
    if p.core.name ∈ req then req.filter (· ≠ p.core.name) else req

/-- The property walk of `generate_json_object` (main.rs:1100-1172): emit each
property body into the properties map and thread the `required` list through
`requiredStep`. Returns the updated properties, the map, and the list. -/
def exportProps : List Property → List (String × Json) → List String →
    List Property × List (String × Json) × List String
  | [], acc, req => ([], acc, req)
  | p :: ps, acc, req =>
      let pe := exportProp p
      let acc' := jsonInsert acc pe.1.core.name (Json.obj pe.2)
      let req' := requiredStep req pe.1
      let rest := exportProps ps acc' req'
      (pe.1 :: rest.1, rest.2.1, rest.2.2)

/-- One exported index entry (main.rs:1174-1196): the `unique` key appears
only when the flag is set; each index property becomes a single-entry
`{field: order}` object carrying the stored sort string verbatim. -/
def exportIndexFields (idx : Index) : List (String × Json) :=
  if idx.unique then
    [("name", Json.str idx.name),
     ("properties", Json.arr (idx.properties.map fun t => Json.obj [(t.fst, Json.str t.snd)])),
     ("unique", Json.bool idx.unique)]
  else
    [("name", Json.str idx.name),
     ("properties", Json.arr (idx.properties.map fun t => Json.obj [(t.fst, Json.str t.snd)]))]

/-- Wrap the index fields as a JSON object. -/
def exportIndex (idx : Index) : Json := Json.obj (exportIndexFields idx)

/-- The `$createdAt`/`$updatedAt` adjustment of the document `required` list
(main.rs:1204-1215), in source order. -/
def sysAdjust (req : List String) (caf uaf : Bool) : List String :=
  let r1 := if caf ∧ "$createdAt" ∉ req then req ++ ["$createdAt"] else req
  let r2 := if "$createdAt" ∈ r1 ∧ ¬caf then r1.filter (· ≠ "$createdAt") else r1
  let r3 := if uaf ∧ "$updatedAt" ∉ r2 then r2 ++ ["$updatedAt"] else r2
  let r4 := if "$updatedAt" ∈ r3 ∧ ¬uaf then r3.filter (· ≠ "$updatedAt") else r3
  r4

/-- The final `required` list of one exported document type: the property walk
starting from the stored list, then the system-property adjustment. -/
def exportDocRequired (dt : DocumentType) : List String :=
  sysAdjust (exportProps dt.properties [] dt.required).2.2
    dt.created_at_required dt.updated_at_required

/-- Body of one exported document type (main.rs:1198-1222), in source
emission order: `indices` only when non-empty, `required` only when the final
list is non-empty, `additionalProperties` always `false`, `$comment` only when
non-empty. -/
def docBodyFields (dt : DocumentType) : List (String × Json) :=
  [("type", Json.str "object"),
   ("properties", Json.obj (exportProps dt.properties [] dt.required).2.1)]
  ++ condField (!dt.indices.isEmpty) "indices" (Json.arr (dt.indices.map exportIndex))
  ++ (if (exportDocRequired dt).isEmpty then []
      else [("required", Json.arr ((exportDocRequired dt).map Json.str))])
  ++ [("additionalProperties", Json.bool false)]
  ++ (if dt.comment.length > 0 then [("$comment", Json.str dt.comment)] else [])

/-- Export of one document type: the mutated document (updated properties and
`required` list) and its `(name, body)` pair. -/
def exportDocType (dt : DocumentType) : DocumentType × String × Json :=
  ({ dt with
      properties := (exportProps dt.properties [] dt.required).1,
      required := exportDocRequired dt },
   dt.name, Json.obj (docBodyFields dt))

/-- Models `generate_json_object` (main.rs:1096-1232) at the `Model` level: export
every document type, storing the mutated tree and the emitted pairs. -/
def generateJsonObject (m : Model) : Model :=
  let pairs := m.document_types.map exportDocType
  { m with
      document_types := pairs.map (·.1),
      json_object := pairs.map fun x => (x.2.1, x.2.2) }

/-! ## Importer (`parse_imported_json`, main.rs:1311-1550)

`none` models a Rust panic (an `unwrap` on a wrongly-typed value or an
unknown `"type"` tag). -/

/-- Models `"type"` tag back to `DataType`; an unknown tag is the
`panic!("Unexpected type value")` arm (main.rs:1359-1367). -/
def parseDataType (s : String) : Option DataType :=
  match s with
  | "string" => some DataType.String
  | "integer" => some DataType.Integer
  | "array" => some DataType.Array
  | "object" => some DataType.Object
  | "number" => some DataType.Number
  | "boolean" => some DataType.Boolean
  | _ => none

/-- The `data_type` assignment: absent key keeps the default; a present key
must be a string (`as_str().unwrap()`) naming a known type. -/
def importDataType (o : List (String × Json)) : Option DataType :=
  match List.lookup "type" o with
  | none => some DataType.String
  | some t => do parseDataType (← t.asStr)

/-- An unsigned numeric field: `v.as_u64().map(|num| num as u32)` when the
key is present, untouched (`none`) otherwise. -/
def importU32 (k : String) (o : List (String × Json)) : Option Nat :=
  (List.lookup k o).bind fun v => v.asU64.map u32cast

/-- A signed numeric field: `v.as_i64().map(|num| num as i32)` when the key
is present. -/
def importI32 (k : String) (o : List (String × Json)) : Option Int :=
  (List.lookup k o).bind fun v => v.asI64.map i32cast

/-- A string field: `v.as_str().map(|s| s.to_string())` when the key is
present. -/
def importStr (k : String) (o : List (String × Json)) : Option String :=
  (List.lookup k o).bind Json.asStr

/-- Whether the `required` array of the parent contains `nm` as a string
(main.rs:1347-1353): a missing or non-array `required` yields `false`. -/
def requiredContains (o : List (String × Json)) (nm : String) : Bool :=
  match List.lookup "required" o with
  | some (Json.arr a) => a.any fun v => match v with
      | Json.str s => s = nm
      | _ => false
  | _ => false

/-- One nested property (main.rs:1414-1481). Its `required` flag comes from
the `required` array `po` of the parent property object `po`. A non-object value is
skipped (`some none`): the push happens inside the `as_object` branch. -/
def importNestedProperty (po : List (String × Json)) (nm : String) (v : Json) :
    Option (Option Property) :=
  match v with
  | Json.obj npo => do
      let dt ← importDataType npo
      return some (Property.mk
        { name := nm
          required := requiredContains po nm
          data_type := dt
          byte_array := (List.lookup "byteArray" npo).bind Json.asBool
          description := importStr "description" npo
          comment := importStr "$comment" npo
          min_length := importU32 "minLength" npo
          max_length := importU32 "maxLength" npo
          pattern := importStr "pattern" npo
          format := importStr "format" npo
          minimum := importI32 "minimum" npo
          maximum := importI32 "maximum" npo
          min_items := importU32 "minItems" npo
          max_items := importU32 "maxItems" npo
          content_media_type := importStr "contentMediaType" npo
          min_properties := importU32 "minProperties" npo
          max_properties := importU32 "maxProperties" npo })
  | _ => some none

/-- The nested-property walk, collecting the properties that are pushed. -/
def importNestedList (po : List (String × Json)) :
    List (String × Json) → Option (List Property)
  | [] => some []
  | (nm, v) :: rest => do
      let hd ← importNestedProperty po nm v
      let tl ← importNestedList po rest
      return (match hd with
        | some p => p :: tl
        | none => tl)

/-- One top-level property (main.rs:1342-1489). Its `required` flag comes
from the `required` array `o` of the document object. A non-object value still
yields a named default property: the push (main.rs:1488) is outside the
`as_object` branch. -/
def importProperty (o : List (String × Json)) (nm : String) (v : Json) :
    Option Property :=
  match v with
  | Json.obj po => do
      let dt ← importDataType po
      let nested : Option (List Property) ←
        match List.lookup "properties" po with
        | some (Json.obj nps) => do
            let vs ← importNestedList po nps
            pure (some vs)
        | some _ => pure none
        | none => pure none
      return Property.mk
        { name := nm
          required := requiredContains o nm
          data_type := dt
          byte_array := (List.lookup "byteArray" po).bind Json.asBool
          description := importStr "description" po
          comment := importStr "$comment" po
          min_length := importU32 "minLength" po
          max_length := importU32 "maxLength" po
          pattern := importStr "pattern" po
          format := importStr "format" po
          minimum := importI32 "minimum" po
          maximum := importI32 "maximum" po
          min_items := importU32 "minItems" po
          max_items := importU32 "maxItems" po
          content_media_type := importStr "contentMediaType" po
          min_properties := importU32 "minProperties" po
          max_properties := importU32 "maxProperties" po
          properties := nested }
  | _ => some (Property.mk { name := nm, required := requiredContains o nm })

/-- The top-level property walk. -/
def importPropertyList (o : List (String × Json)) :
    List (String × Json) → Option (List Property)
  | [] => some []
  | (nm, v) :: rest => do
      let p ← importProperty o nm v
      let tl ← importPropertyList o rest
      return p :: tl

/-- One entry of the `properties` array of an index (main.rs:1517-1529): starting
from the default `("", "asc")`, each key/value of the single-entry object
overwrites the pair (last entry wins); every order value is unwrapped as a
string. Non-object entries are skipped (`some none`). -/
def importIndexProp (v : Json) : Option (Option IndexProperties) :=
  match v with
  | Json.obj o =>
      (o.foldlM
        (fun (_ : IndexProperties) (kv : String × Json) =>
          (kv.2.asStr).map fun ord => (⟨kv.1, ord⟩ : IndexProperties))
        IndexProperties.default).map some
  | _ => some none

/-- The index `properties` walk. -/
def importIndexProps : List Json → Option (List IndexProperties)
  | [] => some []
  | v :: rest => do
      let hd ← importIndexProp v
      let tl ← importIndexProps rest
      return (match hd with
        | some ip => ip :: tl
        | none => tl)

/-- One index entry (main.rs:1497-1535): `name` must be a string when
present, `unique` a bool when present, and a non-array `properties` value
leaves the list empty. Non-object entries are skipped (`some none`). -/
def importIndex (v : Json) : Option (Option Index) :=
  match v with
  | Json.obj o => do
      let nm : String ←
        match List.lookup "name" o with
        | none => pure ""
        | some j => j.asStr
      let uq : Bool ←
        match List.lookup "unique" o with
        | none => pure false
        | some j => j.asBool
      let ips : List IndexProperties ←
        match List.lookup "properties" o with
        | some (Json.arr pvs) => importIndexProps pvs
        | some _ => pure []
        | none => pure []
      return some { name := nm, unique := uq, properties := ips }
  | _ => some none

/-- The index walk. -/
def importIndexList : List Json → Option (List Index)
  | [] => some []
  | v :: rest => do
      let hd ← importIndex v
      let tl ← importIndexList rest
      return (match hd with
        | some idx => idx :: tl
        | none => tl)

/-- The `properties` walk of one document type: a missing or non-object
`properties` value leaves the list empty. -/
def importDocProps (o : List (String × Json)) : Option (List Property) :=
  match List.lookup "properties" o with
  | some (Json.obj ps) => importPropertyList o ps
  | some _ => some []
  | none => some []

/-- The `indices` branch of one document type (main.rs:1494-1544), which
also owns the `$comment` read: the document comment is parsed only when an
`"indices"` key exists (main.rs:1540-1543 sit inside the
`if let Some(indices)` opened at 1494); otherwise it stays `""`. -/
def importDocIndicesComment (o : List (String × Json)) :
    Option (List Index × String) :=
  match List.lookup "indices" o with
  | some j =>
      (match j with
       | Json.arr ivs => importIndexList ivs
       | _ => some []).bind fun idxs =>
      (match List.lookup "$comment" o with
       | none => some ""
       | some c => c.asStr).bind fun cm =>
      some (idxs, cm)
  | none => some ([], "")

/-- One document type (main.rs:1327-1544). -/
def importDocumentType (nm : String) (o : List (String × Json)) :
    Option DocumentType :=
  (importDocProps o).bind fun props =>
  (importDocIndicesComment o).bind fun ic =>
  some { name := nm
         properties := props
         indices := ic.1
         required := []
         created_at_required := requiredContains o "$createdAt"
         updated_at_required := requiredContains o "$updatedAt"
         additionalProperties := false
         comment := ic.2 }

/-- The top-level walk (main.rs:1325-1549): entries whose value is not an
object create no document type at all (the push at main.rs:1547 is inside the
`as_object` branch opened at 1331). -/
def importDocTypes : List (String × Json) → Option (List DocumentType)
  | [] => some []
  | (nm, v) :: rest =>
      match v with
      | Json.obj o => do
          let dt ← importDocumentType nm o
          let tl ← importDocTypes rest
          return dt :: tl
      | _ => importDocTypes rest

/-- Models `parse_imported_json` (main.rs:1311-1550). `parsed` is the result of
`serde_json::from_str::<HashMap<String, Value>>(&self.imported_json)`
(`none` = parse failure, turned into the empty map by `unwrap_or_default`).
`json_object` receives one entry per parsed pair, objects or not. -/
def parseImportedJson (m : Model) (parsed : Option (List (String × Json))) :
    Option Model :=
  let pj := parsed.getD []
  match importDocTypes pj with
  | some ds => some { m with json_object := pj, document_types := ds }
  | none => none

/-! ## Editor operations (the `Msg` handlers the claims refer to) -/

/-- In-place update of a list element. The Rust `self.document_types[i]`
indexing panics out of bounds; every use below is in bounds, where this
helper agrees with it. -/
def listModify {α : Type} : List α → Nat → (α → α) → List α
  | [], _, _ => []
  | x :: xs, 0, f => f x :: xs
  | x :: xs, n + 1, f => x :: listModify xs n f

/-- Models `default_additional_properties` (main.rs:367-407): the reset property for
a newly selected data type. Only `"Array"` sets a type-keyed field
(`byte_array = Some(true)`); the `panic!("Invalid data type selected")` arm
is `none`. -/
def defaultAdditionalProperties (data_type : String) : Option Property :=
  match data_type with
  | "String" => some (Property.mk { data_type := DataType.String })
  | "Integer" => some (Property.mk { data_type := DataType.Integer })
  | "Array" => some (Property.mk { data_type := DataType.Array, byte_array := some true })
  | "Object" => some (Property.mk { data_type := DataType.Object })
  | "Number" => some (Property.mk { data_type := DataType.Number })
  | "Boolean" => some (Property.mk { data_type := DataType.Boolean })
  | _ => none

/-- Models `Msg::UpdatePropertyType` (main.rs:1685-1699): copy `data_type` and
eleven type-keyed fields from `new_property` onto the target property.
`content_media_type`, `name`, `required`, `description`, `comment`,
`properties`, `rec_required` and `additional_properties` are not copied. -/
def propertyTypeUpdate (prop new_property : Property) : Property :=
  Property.mk
    { prop.core with
        data_type := new_property.core.data_type
        min_length := new_property.core.min_length
        max_length := new_property.core.max_length
        pattern := new_property.core.pattern
        format := new_property.core.format
        minimum := new_property.core.minimum
        maximum := new_property.core.maximum
        byte_array := new_property.core.byte_array
        min_items := new_property.core.min_items
        max_items := new_property.core.max_items
        min_properties := new_property.core.min_properties
        max_properties := new_property.core.max_properties }

/-- Models `Msg::UpdatePropertyName` (main.rs:1673-1675). -/
def updatePropertyName (m : Model) (doc_index prop_index : Nat) (name : String) : Model :=
  { m with document_types := listModify m.document_types doc_index fun dt =>
      { dt with properties := listModify dt.properties prop_index fun p =>
          Property.mk { p.core with name := name } } }

/-- Models `Msg::UpdatePropertyRequired` (main.rs:1703-1705). -/
def updatePropertyRequired (m : Model) (doc_index prop_index : Nat) (required : Bool) : Model :=
  { m with document_types := listModify m.document_types doc_index fun dt =>
      { dt with properties := listModify dt.properties prop_index fun p =>
          Property.mk { p.core with required := required } } }

/-- Models `Msg::AddProperty` (main.rs:1635-1637). -/
def addProperty (m : Model) (doc_index : Nat) : Model :=
  { m with document_types := listModify m.document_types doc_index fun dt =>
      { dt with properties := dt.properties ++ [Property.default] } }

/-- Models `Msg::UpdateArrayPropertyCMT` (main.rs:1748-1750): store the text-field
value, empty or not, as `Some`. -/
def updateArrayPropertyCMT (m : Model) (doc_index prop_index : Nat) (cmt : String) : Model :=
  { m with document_types := listModify m.document_types doc_index fun dt =>
      { dt with properties := listModify dt.properties prop_index fun p =>
          Property.mk { p.core with content_media_type := some cmt } } }

/-- Models `Msg::Clear` (main.rs:1903-1907): reset `json_object`, `imported_json`
and `error_messages`. No other field is touched. -/
def clear (m : Model) : Model :=
  { m with json_object := [], imported_json := "", error_messages := [] }

/-! ## Views and concrete states used by the theorems -/

/-- The value an omitted-when-empty optional string field shows in the
emitted JSON: present iff it holds a non-empty string. -/
def strVal : Option String → Option Json
  | some s => if s.length > 0 then some (Json.str s) else none
  | none => none

/-- The document-level `required` walk as a fold (proof view of the
`requiredStep` thread inside `exportProps`). -/
def requiredWalk (req : List String) (props : List Property) : List String :=
  props.foldl requiredStep req

/-- A model holding one document type that has a `$comment` but no indices
(the C1 failing input, producible by the editor). -/
def commentOnlyModel : Model :=
  { initModel with document_types := [{ name := "a", comment := "note" }] }

/-- Parsed form of `{"d":{"properties":{"blob":{"type":"array"}}}}`: an array
property without a `byteArray` key. -/
def arrayNoByteArrayJson : List (String × Json) :=
  [("d", Json.obj [("properties", Json.obj
     [("blob", Json.obj [("type", Json.str "array")])])])]

/-- Parsed form of
`{"d":{"indices":[{"name":"i","properties":[{"f":"desc"}]}]}}`: an index
whose sort order is `"desc"`. -/
def descSortJson : List (String × Json) :=
  [("d", Json.obj [("indices", Json.arr [Json.obj
     [("name", Json.str "i"),
      ("properties", Json.arr [Json.obj [("f", Json.str "desc")]])]])])]

/-- Parsed form of
`{"d":{"properties":{"p":{"type":"string","minLength":4294967301}}}}`:
`minLength` is `2^32 + 5`, out of `u32` range. -/
def bigMinLengthJson : List (String × Json) :=
  [("d", Json.obj [("properties", Json.obj [("p", Json.obj
     [("type", Json.str "string"), ("minLength", Json.num 4294967301)])])])]

/-- A model with one document type `"d"` holding one required property
`"a"` (reachable from `initModel` by `AddProperty` and field updates). -/
def requiredPropModel : Model :=
  { initModel with document_types :=
      [{ name := "d", properties := [Property.mk { name := "a", required := true }] }] }

/-- An `Array` property carrying a `contentMediaType` (reachable via a type
change to Array followed by `UpdateArrayPropertyCMT`). -/
def cmtProp : Property :=
  Property.mk { name := "x", data_type := DataType.Array, byte_array := some true,
                content_media_type := some "text/plain" }

/-- An `Array` property whose `contentMediaType` field holds the empty
string (reachable by typing into and then clearing the CMT form field,
`UpdateArrayPropertyCMT` with `""`). -/
def emptyCmtProp : Property :=
  Property.mk { name := "x", data_type := DataType.Array, byte_array := some true,
                content_media_type := some "" }

/-- The model state produced by importing `{"x": 3, "d": {}}` (the C10 witness input). -/
def witnessImportedModel : Model :=
  { initModel with
      json_object := [("x", Json.num 3), ("d", Json.obj [])]
      document_types := [{ name := "d" }] }

/-- A clean document type used to witness the amended C2: one required
property `"a"`, `$createdAt` required. -/
def witnessDoc : DocumentType :=
  { name := "d", properties := [Property.mk { name := "a", required := true }],
    created_at_required := true }

/-- What an unsigned numeric field actually becomes on import when the JSON
number is the integer `n`: `as_u64` then `as u32`, i.e. truncation modulo
`2^32` for `n ∈ [0, 2^64)`, absent otherwise. -/
def importedU32 (n : Int) : Option Nat :=
  if 0 ≤ n ∧ n < 2 ^ 64 then some (u32cast n.toNat) else none

/-- What a signed numeric field actually becomes on import when the JSON
number is the integer `n`: `as_i64` then `as i32`, i.e. twos-complement
truncation into `[-2^31, 2^31)` for `n ∈ [-2^63, 2^63)`, absent otherwise. -/
def importedI32 (n : Int) : Option Int :=
  if -(2 ^ 63) ≤ n ∧ n < 2 ^ 63 then some (i32cast n) else none

/-- A one-property document object whose eight numeric fields all hold the
integer `n`, used to state the numeric-coercion claim. -/
def numericFieldsObj (n : Int) : List (String × Json) :=
  [("properties", Json.obj [("p", Json.obj
     [("minLength", Json.num n), ("maxLength", Json.num n),
      ("minItems", Json.num n), ("maxItems", Json.num n),
      ("minProperties", Json.num n), ("maxProperties", Json.num n),
      ("minimum", Json.num n), ("maximum", Json.num n)])])]

/-! ## Lookup lemmas for the emitted objects -/

theorem lookup_cons_ne {k k' : String} {v : Json} {rest : List (String × Json)}
    (h : k ≠ k') : List.lookup k ((k', v) :: rest) = List.lookup k rest := by
  simp [List.lookup, beq_eq_false_iff_ne.mpr h]

theorem lookup_cons_eq {k : String} {v : Json} {rest : List (String × Json)} :
    List.lookup k ((k, v) :: rest) = some v := by
  simp [List.lookup]

theorem lookup_strField_ne {k k' : String} {v : Option String}
    {rest : List (String × Json)} (h : k ≠ k') :
    List.lookup k (strField k' v ++ rest) = List.lookup k rest := by
  cases v with
  | none => rfl
  | some s =>
      dsimp only [strField]
      split
      · exact lookup_cons_ne h
      · rfl

theorem lookup_strField_eq {k : String} {v : Option String}
    {rest : List (String × Json)} :
    List.lookup k (strField k v ++ rest)
      = match v with
        | some s => if s.length > 0 then some (Json.str s) else List.lookup k rest
        | none => List.lookup k rest := by
  cases v with
  | none => rfl
  | some s =>
      dsimp only [strField]
      split <;> simp_all [lookup_cons_eq]

theorem lookup_someStrField_ne {k k' : String} {v : Option String}
    {rest : List (String × Json)} (h : k ≠ k') :
    List.lookup k (someStrField k' v ++ rest) = List.lookup k rest := by
  cases v with
  | none => rfl
  | some s => exact lookup_cons_ne h

theorem lookup_someStrField_eq {k : String} {v : Option String}
    {rest : List (String × Json)} :
    List.lookup k (someStrField k v ++ rest)
      = match v with
        | some s => some (Json.str s)
        | none => List.lookup k rest := by
  cases v with
  | none => rfl
  | some s => exact lookup_cons_eq

theorem lookup_natField_ne {k k' : String} {v : Option Nat}
    {rest : List (String × Json)} (h : k ≠ k') :
    List.lookup k (natField k' v ++ rest) = List.lookup k rest := by
  cases v with
  | none => rfl
  | some n => exact lookup_cons_ne h

theorem lookup_intField_ne {k k' : String} {v : Option Int}
    {rest : List (String × Json)} (h : k ≠ k') :
    List.lookup k (intField k' v ++ rest) = List.lookup k rest := by
  cases v with
  | none => rfl
  | some n => exact lookup_cons_ne h

theorem lookup_boolField_ne {k k' : String} {v : Option Bool}
    {rest : List (String × Json)} (h : k ≠ k') :
    List.lookup k (boolField k' v ++ rest) = List.lookup k rest := by
  cases v with
  | none => rfl
  | some b => exact lookup_cons_ne h

theorem lookup_boolField_eq {k : String} {v : Option Bool}
    {rest : List (String × Json)} :
    List.lookup k (boolField k v ++ rest)
      = match v with
        | some b => some (Json.bool b)
        | none => List.lookup k rest := by
  cases v with
  | none => rfl
  | some b => exact lookup_cons_eq

theorem lookup_reqField_ne {k k' : String} {v : Option (List String)}
    {rest : List (String × Json)} (h : k ≠ k') :
    List.lookup k (reqField k' v ++ rest) = List.lookup k rest := by
  dsimp only [reqField]
  split
  · exact lookup_cons_ne h
  · rfl

theorem lookup_condField_ne {k k' : String} {b : Bool} {v : Json}
    {rest : List (String × Json)} (h : k ≠ k') :
    List.lookup k (condField b k' v ++ rest) = List.lookup k rest := by
  cases b with
  | false => rfl
  | true => exact lookup_cons_ne h

theorem lookup_condField_nil {k k' : String} {b : Bool} {v : Json} (h : k ≠ k') :
    List.lookup k (condField b k' v) = none := by
  cases b with
  | false => rfl
  | true =>
      rw [show condField true k' v = (k', v) :: [] from rfl, lookup_cons_ne h]
      rfl

theorem lookup_strField_nil {k k' : String} {v : Option String} (h : k ≠ k') :
    List.lookup k (strField k' v) = none := by
  cases v with
  | none => rfl
  | some s =>
      dsimp only [strField]
      split
      · rw [show ([(k', Json.str s)] : List (String × Json))
              = (k', Json.str s) :: [] from rfl, lookup_cons_ne h]
        rfl
      · rfl

theorem lookup_strField_nil_eq {k : String} {v : Option String} :
    List.lookup k (strField k v) = strVal v := by
  cases v with
  | none => rfl
  | some s =>
      dsimp only [strField, strVal]
      split <;> simp [List.lookup]

theorem strField_some {k s} :
    strField k (some s) = if s.length > 0 then [(k, Json.str s)] else [] := rfl

theorem strField_none {k} : strField k (none : Option String) = [] := rfl

theorem someStrField_some {k s} : someStrField k (some s) = [(k, Json.str s)] := rfl

theorem someStrField_none {k} : someStrField k (none : Option String) = [] := rfl

/-! ## The document-level `required` walk -/

theorem exportProp_fst_name (p : Property) :
    (exportProp p).1.core.name = p.core.name := by
  cases p with
  | mk c =>
      dsimp only [exportProp, Property.core]
      by_cases hdt : c.data_type = DataType.Object
      · rw [if_pos hdt]
        dsimp only [generateNestedProperties, Property.core]
        cases hp : c.properties with
        | none => rfl
        | some nested => rfl
      · rw [if_neg hdt]

theorem exportProp_fst_required (p : Property) :
    (exportProp p).1.core.required = p.core.required := by
  cases p with
  | mk c =>
      dsimp only [exportProp, Property.core]
      by_cases hdt : c.data_type = DataType.Object
      · rw [if_pos hdt]
        dsimp only [generateNestedProperties, Property.core]
        cases hp : c.properties with
        | none => rfl
        | some nested => rfl
      · rw [if_neg hdt]

theorem requiredStep_exportProp (req : List String) (p : Property) :
    requiredStep req (exportProp p).1 = requiredStep req p := by
  unfold requiredStep
  rw [exportProp_fst_name, exportProp_fst_required]

theorem exportProps_req (props : List Property) :
    ∀ acc req, (exportProps props acc req).2.2 = requiredWalk req props := by
  induction props with
  | nil => intro acc req; rfl
  | cons p ps ih =>
      intro acc req
      dsimp only [exportProps]
      rw [ih, requiredStep_exportProp]
      rfl

theorem requiredStep_mem_pos (req : List String) (p : Property) (x : String)
    (h : p.core.required = true) :
    x ∈ requiredStep req p ↔ x ∈ req ∨ x = p.core.name := by
  unfold requiredStep
  rw [h]
  by_cases h2 : p.core.name ∈ req
  · simp only [if_true, if_pos h2]
    exact ⟨fun hx => Or.inl hx, fun hx => hx.elim id fun e => e ▸ h2⟩
  · simp only [if_true, if_neg h2]
    simp [List.mem_append]

theorem requiredStep_mem_neg (req : List String) (p : Property) (x : String)
    (h : p.core.required = false) :
    x ∈ requiredStep req p ↔ x ∈ req ∧ x ≠ p.core.name := by
  unfold requiredStep
  rw [h]
  by_cases h2 : p.core.name ∈ req
  · simp only [Bool.false_eq_true, if_false, if_pos h2]
    simp [List.mem_filter]
  · simp only [Bool.false_eq_true, if_false, if_neg h2]
    exact ⟨fun hx => ⟨hx, fun e => h2 (e ▸ hx)⟩, And.left⟩

theorem requiredWalk_mem (props : List Property) :
    ∀ (req : List String) (x : String),
      (props.map (·.core.name)).Nodup →
      (x ∈ requiredWalk req props ↔
        (∃ p, p ∈ props ∧ p.core.name = x ∧ p.core.required = true)
          ∨ (x ∈ req ∧ x ∉ props.map (·.core.name))) := by
  induction props with
  | nil => simp [requiredWalk]
  | cons p ps ih =>
      intro req x hnd
      have hnd2 : (ps.map (·.core.name)).Nodup := (List.nodup_cons.mp hnd).2
      have hname : p.core.name ∉ ps.map (·.core.name) := (List.nodup_cons.mp hnd).1
      have hw : requiredWalk req (p :: ps) = requiredWalk (requiredStep req p) ps := rfl
      rw [hw, ih _ x hnd2]
      cases hreq : p.core.required with
      | true =>
          constructor
          · rintro (⟨q, hq, rfl, hqr⟩ | ⟨hx, hnot⟩)
            · exact Or.inl ⟨q, List.mem_cons_of_mem _ hq, rfl, hqr⟩
            · rcases (requiredStep_mem_pos req p x hreq).mp hx with hx2 | rfl
              · by_cases hxp : x = p.core.name
                · exact Or.inl ⟨p, List.mem_cons_self _ _, hxp.symm, hreq⟩
                · refine Or.inr ⟨hx2, ?_⟩
                  simp only [List.map_cons, List.mem_cons]
                  rintro (hh | hh)
                  · exact hxp hh
                  · exact hnot hh
              · exact Or.inl ⟨p, List.mem_cons_self _ _, rfl, hreq⟩
          · rintro (⟨q, hq, rfl, hqr⟩ | ⟨hx, hnot⟩)
            · rcases List.mem_cons.mp hq with h1 | hq2
              · subst h1
                exact Or.inr
                  ⟨(requiredStep_mem_pos req q q.core.name hreq).mpr (Or.inr rfl), hname⟩
              · exact Or.inl ⟨q, hq2, rfl, hqr⟩
            · have hnot2 : x ≠ p.core.name ∧ x ∉ ps.map (·.core.name) := by
                simp only [List.map_cons, List.mem_cons] at hnot
                push_neg at hnot
                exact hnot
              exact Or.inr ⟨(requiredStep_mem_pos req p x hreq).mpr (Or.inl hx), hnot2.2⟩
      | false =>
          constructor
          · rintro (⟨q, hq, rfl, hqr⟩ | ⟨hx, hnot⟩)
            · exact Or.inl ⟨q, List.mem_cons_of_mem _ hq, rfl, hqr⟩
            · have hx2 := (requiredStep_mem_neg req p x hreq).mp hx
              refine Or.inr ⟨hx2.1, ?_⟩
              simp only [List.map_cons, List.mem_cons]
              rintro (hh | hh)
              · exact hx2.2 hh
              · exact hnot hh
          · rintro (⟨q, hq, rfl, hqr⟩ | ⟨hx, hnot⟩)
            · rcases List.mem_cons.mp hq with h1 | hq2
              · subst h1
                rw [hreq] at hqr
                exact absurd hqr (by decide)
              · exact Or.inl ⟨q, hq2, rfl, hqr⟩
            · have hnot2 : x ≠ p.core.name ∧ x ∉ ps.map (·.core.name) := by
                simp only [List.map_cons, List.mem_cons] at hnot
                push_neg at hnot
                exact hnot
              exact Or.inr
                ⟨(requiredStep_mem_neg req p x hreq).mpr ⟨hx, hnot2.1⟩, hnot2.2⟩

theorem sysAdjust_mem_created (req : List String) (caf uaf : Bool) :
    "$createdAt" ∈ sysAdjust req caf uaf ↔ caf = true := by
  unfold sysAdjust
  cases caf <;> cases uaf <;>
    by_cases h : "$createdAt" ∈ req <;> by_cases h2 : "$updatedAt" ∈ req <;>
      simp_all +decide [List.mem_append, List.mem_filter]

theorem sysAdjust_mem_updated (req : List String) (caf uaf : Bool) :
    "$updatedAt" ∈ sysAdjust req caf uaf ↔ uaf = true := by
  unfold sysAdjust
  cases caf <;> cases uaf <;>
    by_cases h : "$createdAt" ∈ req <;> by_cases h2 : "$updatedAt" ∈ req <;>
      simp_all +decide [List.mem_append, List.mem_filter]

theorem sysAdjust_mem_other (req : List String) (caf uaf : Bool) (x : String)
    (hx1 : x ≠ "$createdAt") (hx2 : x ≠ "$updatedAt") :
    x ∈ sysAdjust req caf uaf ↔ x ∈ req := by
  unfold sysAdjust
  cases caf <;> cases uaf <;>
    by_cases h : "$createdAt" ∈ req <;> by_cases h2 : "$updatedAt" ∈ req <;>
      simp_all [List.mem_append, List.mem_filter]

/-! ## Claim C2 -/

/-- C2 counterexample: the emitted `required` array is NOT always exactly
the required-flagged property names plus system names. Renaming a required
property after a submit leaves its old name in the stored `required` list,
and the next export emits both: here the only property is `("b", required)`
yet the emitted list is `["a", "b"]`. -/
theorem c2_counterexample_stale_required :
    ((updatePropertyName (generateJsonObject requiredPropModel) 0 0 "b").document_types.map
        exportDocRequired) = [["a", "b"]]
    ∧ ((updatePropertyName (generateJsonObject requiredPropModel) 0 0 "b").document_types.map
        fun dt => dt.properties.map fun p => (p.core.name, p.core.required)) = [[("b", true)]] :=
  ⟨rfl, rfl⟩

/-- C2 amended: PROVIDED the stored `required` list holds only names of
current properties or the system names, property names are pairwise
distinct, and no property is named `$createdAt`/`$updatedAt`, the exported
`required` list contains exactly the names of required-flagged properties,
plus `$createdAt` iff `created_at_required` and `$updatedAt` iff
`updated_at_required`; and the `required` key of the document body is
emitted iff that list is non-empty. Stale entries (e.g. left by renaming a
property after a submit) are otherwise preserved verbatim. -/
theorem c2_required_matches_flags (dt : DocumentType)
    (h1 : ∀ x ∈ dt.required,
        x ∈ dt.properties.map (·.core.name) ∨ x = "$createdAt" ∨ x = "$updatedAt")
    (h2 : (dt.properties.map (·.core.name)).Nodup)
    (h3 : ∀ p ∈ dt.properties,
        p.core.name ≠ "$createdAt" ∧ p.core.name ≠ "$updatedAt") :
    (∀ x, x ∈ exportDocRequired dt ↔
        ((∃ p, p ∈ dt.properties ∧ p.core.name = x ∧ p.core.required = true)
          ∨ (x = "$createdAt" ∧ dt.created_at_required = true)
          ∨ (x = "$updatedAt" ∧ dt.updated_at_required = true)))
    ∧ List.lookup "required" (docBodyFields dt)
        = (if exportDocRequired dt = [] then none
           else some (Json.arr ((exportDocRequired dt).map Json.str))) := by
  constructor
  · intro x
    unfold exportDocRequired
    rw [exportProps_req]
    by_cases hca : x = "$createdAt"
    · subst hca
      rw [sysAdjust_mem_created]
      constructor
      · intro hcaf
        exact Or.inr (Or.inl ⟨rfl, hcaf⟩)
      · rintro (⟨p, hp, hname, _⟩ | ⟨_, hcaf⟩ | ⟨habs, _⟩)
        · exact absurd hname (h3 p hp).1
        · exact hcaf
        · exact absurd habs (by decide)
    · by_cases hua : x = "$updatedAt"
      · subst hua
        rw [sysAdjust_mem_updated]
        constructor
        · intro huaf
          exact Or.inr (Or.inr ⟨rfl, huaf⟩)
        · rintro (⟨p, hp, hname, _⟩ | ⟨habs, _⟩ | ⟨_, huaf⟩)
          · exact absurd hname (h3 p hp).2
          · exact absurd habs (by decide)
          · exact huaf
      · rw [sysAdjust_mem_other _ _ _ _ hca hua, requiredWalk_mem _ _ _ h2]
        constructor
        · rintro (⟨p, hp, rfl, hpr⟩ | ⟨hreq, hnot⟩)
          · exact Or.inl ⟨p, hp, rfl, hpr⟩
          · rcases h1 x hreq with hn | hs | hs
            · exact absurd hn hnot
            · exact absurd hs hca
            · exact absurd hs hua
        · rintro (⟨p, hp, rfl, hpr⟩ | ⟨hxe, _⟩ | ⟨hxe, _⟩)
          · exact Or.inl ⟨p, hp, rfl, hpr⟩
          · exact absurd hxe hca
          · exact absurd hxe hua
  · dsimp only [docBodyFields]
    simp only [List.cons_append, List.nil_append, List.append_assoc]
    rw [lookup_cons_ne (by decide), lookup_cons_ne (by decide),
        lookup_condField_ne (by decide)]
    by_cases hre : (exportDocRequired dt).isEmpty = true
    · have hnil : exportDocRequired dt = [] := by
        cases hl : exportDocRequired dt with
        | nil => rfl
        | cons a l => rw [hl] at hre; simp [List.isEmpty] at hre
      rw [if_pos hre, if_pos hnil]
      simp only [List.nil_append, List.cons_append]
      rw [lookup_cons_ne (by decide)]
      by_cases hcm : dt.comment.length > 0
      · rw [if_pos hcm, lookup_cons_ne (by decide)]
        rfl
      · rw [if_neg hcm]
        rfl
    · have hnil : ¬exportDocRequired dt = [] := by
        intro he
        rw [he] at hre
        exact hre rfl
      rw [if_neg hre, if_neg hnil]
      simp only [List.cons_append, List.nil_append]
      rw [lookup_cons_eq]

/-- Witness for the amended C2 at a clean concrete document type. -/
theorem c2_witness :
    "a" ∈ exportDocRequired witnessDoc ∧ "$createdAt" ∈ exportDocRequired witnessDoc := by
  have h := c2_required_matches_flags witnessDoc (by decide) (by decide) (by decide)
  refine ⟨(h.1 "a").mpr ?_, (h.1 "$createdAt").mpr ?_⟩
  · exact Or.inl ⟨Property.mk { name := "a", required := true },
      List.mem_singleton_self _, rfl, rfl⟩
  · exact Or.inr (Or.inl ⟨rfl, rfl⟩)

/-! ## Claim C10 -/

theorem optionBind2_some {A B C : Type} {X : Option A} {Y : A → Option B}
    {f : A → B → C} {r : C}
    (h : (X.bind fun a => (Y a).bind fun b => some (f a b)) = some r) :
    ∃ a b, r = f a b := by
  cases X with
  | none => simp at h
  | some a =>
      cases hY : Y a with
      | none => simp [hY] at h
      | some b =>
          simp [hY] at h
          exact ⟨a, b, h.symm⟩

theorem importDocumentType_name (nm : String) (o : List (String × Json))
    (dt : DocumentType) (h : importDocumentType nm o = some dt) : dt.name = nm := by
  unfold importDocumentType at h
  obtain ⟨props, ic, hdt⟩ := optionBind2_some h
  rw [hdt]

theorem importDocTypes_names :
    ∀ (kvs : List (String × Json)) (ds : List DocumentType),
      importDocTypes kvs = some ds →
      ds.map (·.name) = (kvs.filter fun kv => kv.2.isObj).map Prod.fst := by
  intro kvs
  induction kvs with
  | nil =>
      intro ds h
      simp only [importDocTypes, Option.some.injEq] at h
      subst h
      rfl
  | cons kv rest ih =>
      intro ds h
      obtain ⟨nm, v⟩ := kv
      cases v with
      | obj o =>
          simp only [importDocTypes, Option.bind_eq_some, bind, Option.pure_def,
            Option.some.injEq] at h
          obtain ⟨dt, hdt, tl, htl, hds⟩ := h
          subst hds
          have hfil : (((nm, Json.obj o) :: rest).filter fun kv => kv.2.isObj)
              = (nm, Json.obj o) :: (rest.filter fun kv => kv.2.isObj) := by
            simp [Json.isObj]
          rw [hfil]
          simp only [List.map_cons]
          rw [importDocumentType_name nm o dt hdt, ih tl htl]
      | null =>
          simp only [importDocTypes] at h
          have hfil : (((nm, Json.null) :: rest).filter fun kv => kv.2.isObj)
              = rest.filter fun kv => kv.2.isObj := by simp [Json.isObj]
          rw [hfil, ih ds h]
      | bool b =>
          simp only [importDocTypes] at h
          have hfil : (((nm, Json.bool b) :: rest).filter fun kv => kv.2.isObj)
              = rest.filter fun kv => kv.2.isObj := by simp [Json.isObj]
          rw [hfil, ih ds h]
      | num n =>
          simp only [importDocTypes] at h
          have hfil : (((nm, Json.num n) :: rest).filter fun kv => kv.2.isObj)
              = rest.filter fun kv => kv.2.isObj := by simp [Json.isObj]
          rw [hfil, ih ds h]
      | str s =>
          simp only [importDocTypes] at h
          have hfil : (((nm, Json.str s) :: rest).filter fun kv => kv.2.isObj)
              = rest.filter fun kv => kv.2.isObj := by simp [Json.isObj]
          rw [hfil, ih ds h]
      | arr a =>
          simp only [importDocTypes] at h
          have hfil : (((nm, Json.arr a) :: rest).filter fun kv => kv.2.isObj)
              = rest.filter fun kv => kv.2.isObj := by simp [Json.isObj]
          rw [hfil, ih ds h]

/-- C10: during a successful import, every top-level entry whose value is
not a JSON object is skipped entirely — the resulting document types are
exactly (in names and in order) the object-valued entries, so no document
type (not even an empty one) is created for a non-object entry. -/
theorem c10_nonobject_entries_skipped (m : Model) (kvs : List (String × Json))
    (m2 : Model) (h : parseImportedJson m (some kvs) = some m2) :
    m2.document_types.map (·.name) = (kvs.filter fun kv => kv.2.isObj).map Prod.fst := by
  replace h : (match importDocTypes kvs with
      | some ds => some { m with json_object := kvs, document_types := ds }
      | none => none) = some m2 := h
  cases hds : importDocTypes kvs with
  | none => rw [hds] at h; exact Option.noConfusion h
  | some ds =>
      rw [hds] at h
      injection h with h2
      subst h2
      exact importDocTypes_names kvs ds hds

/-- Witness for C10: importing `{"x": 3, "d": {}}` creates exactly one
document type, named `"d"`; the non-object entry `"x"` creates none. -/
theorem c10_witness :
    witnessImportedModel.document_types.map (·.name)
      = (([("x", Json.num 3), ("d", Json.obj [])].filter fun kv => kv.2.isObj).map
          Prod.fst) :=
  c10_nonobject_entries_skipped initModel [("x", Json.num 3), ("d", Json.obj [])]
    witnessImportedModel rfl

/-! ## Claim C1 -/

/-- C1: the round-trip `import ∘ export` is NOT the identity, and
`export ∘ import ∘ export ≠ export`: for a document type carrying a
`$comment` but no indices, export emits the `$comment` (third key of the
body), yet import recovers the comment as `""` because `parse_imported_json`
reads `$comment` only inside the branch guarded by the presence of an
`"indices"` key. The re-export therefore omits `$comment`. -/
theorem c1_comment_dropped_on_roundtrip :
    (generateJsonObject commentOnlyModel).json_object
      = [("a", Json.obj [("type", Json.str "object"), ("properties", Json.obj []),
          ("additionalProperties", Json.bool false), ("$comment", Json.str "note")])]
    ∧ (parseImportedJson commentOnlyModel
          (some (generateJsonObject commentOnlyModel).json_object)).map
        (fun m => m.document_types.map (·.comment)) = some [""]
    ∧ commentOnlyModel.document_types.map (·.comment) = ["note"] :=
  ⟨rfl, rfl, rfl⟩

/-! ## Claim C3 -/

/-- C3 counterexample: the claim says a data-type change resets
`content_media_type` to the default of the new type (absent), but
`Msg::UpdatePropertyType` does not copy that field, so an Array property
with `contentMediaType = "text/plain"` changed to String keeps it. -/
theorem c3_counterexample_cmt_survives :
    (defaultAdditionalProperties "String").map
        (fun q => (propertyTypeUpdate cmtProp q).core.content_media_type)
      = some (some "text/plain")
    ∧ some "text/plain" ≠ (none : Option String) :=
  ⟨rfl, by decide⟩

/-- C3 amended: a data-type change (`Msg::UpdatePropertyType` applied to the
`default_additional_properties` preset of the new type) resets `min_length`,
`max_length`, `pattern`, `format`, `minimum`, `maximum`, `byte_array`,
`min_items`, `max_items`, `min_properties` and `max_properties` to the defaults of the new
type — only Array presets `byte_array = true` — while `name`,
`required`, `description`, `comment` AND `content_media_type` (plus the
nested `properties`, `rec_required`, `additional_properties`) keep their
previous values. -/
theorem c3_type_change_resets_all_but_cmt :
    (∀ p q : Property,
      (propertyTypeUpdate p q).core.data_type = q.core.data_type
      ∧ (propertyTypeUpdate p q).core.min_length = q.core.min_length
      ∧ (propertyTypeUpdate p q).core.max_length = q.core.max_length
      ∧ (propertyTypeUpdate p q).core.pattern = q.core.pattern
      ∧ (propertyTypeUpdate p q).core.format = q.core.format
      ∧ (propertyTypeUpdate p q).core.minimum = q.core.minimum
      ∧ (propertyTypeUpdate p q).core.maximum = q.core.maximum
      ∧ (propertyTypeUpdate p q).core.byte_array = q.core.byte_array
      ∧ (propertyTypeUpdate p q).core.min_items = q.core.min_items
      ∧ (propertyTypeUpdate p q).core.max_items = q.core.max_items
      ∧ (propertyTypeUpdate p q).core.min_properties = q.core.min_properties
      ∧ (propertyTypeUpdate p q).core.max_properties = q.core.max_properties
      ∧ (propertyTypeUpdate p q).core.content_media_type = p.core.content_media_type
      ∧ (propertyTypeUpdate p q).core.name = p.core.name
      ∧ (propertyTypeUpdate p q).core.required = p.core.required
      ∧ (propertyTypeUpdate p q).core.description = p.core.description
      ∧ (propertyTypeUpdate p q).core.comment = p.core.comment
      ∧ (propertyTypeUpdate p q).core.properties = p.core.properties
      ∧ (propertyTypeUpdate p q).core.rec_required = p.core.rec_required
      ∧ (propertyTypeUpdate p q).core.additional_properties = p.core.additional_properties)
    ∧ defaultAdditionalProperties "String" = some (Property.mk { data_type := DataType.String })
    ∧ defaultAdditionalProperties "Integer" = some (Property.mk { data_type := DataType.Integer })
    ∧ defaultAdditionalProperties "Array"
        = some (Property.mk { data_type := DataType.Array, byte_array := some true })
    ∧ defaultAdditionalProperties "Object" = some (Property.mk { data_type := DataType.Object })
    ∧ defaultAdditionalProperties "Number" = some (Property.mk { data_type := DataType.Number })
    ∧ defaultAdditionalProperties "Boolean"
        = some (Property.mk { data_type := DataType.Boolean }) := by
  refine ⟨fun p q => ?_, rfl, rfl, rfl, rfl, rfl, rfl⟩
  exact ⟨rfl, rfl, rfl, rfl, rfl, rfl, rfl, rfl, rfl, rfl, rfl, rfl, rfl, rfl, rfl, rfl,
         rfl, rfl, rfl, rfl⟩

/-! ## Claim C4 -/

/-- C4 counterexample: importing an array property without a `byteArray` key
yields `byte_array = none` (no explicit `false` override), and its re-export
carries no `byteArray` field at all, contradicting "present and true". -/
theorem c4_counterexample_array_without_bytearray :
    (parseImportedJson initModel (some arrayNoByteArrayJson)).map
        (fun m => m.document_types.map fun dt =>
          dt.properties.map fun p => (p.core.data_type, p.core.byte_array))
      = some [[(DataType.Array, none)]]
    ∧ (parseImportedJson initModel (some arrayNoByteArrayJson)).map
        (fun m => (generateJsonObject m).json_object)
      = some [("d", Json.obj [("type", Json.str "object"),
          ("properties", Json.obj [("blob", Json.obj [("type", Json.str "array")])]),
          ("additionalProperties", Json.bool false)])] :=
  ⟨rfl, rfl⟩

/-- C4 amended: the exporter emits a `byteArray` field iff the model field
`byte_array` is set, with exactly the stored value: `true` for every Array
property produced by a type change (which presets `Some(true)`), `false`
for an explicit override, and no field at all when the flag is unset
(possible for imported arrays lacking the key). -/
theorem c4_bytearray_emitted_iff_present (p : Property) :
    List.lookup "byteArray" (exportProp p).2 = p.core.byte_array.map Json.bool := by
  cases hb : p.core.byte_array with
  | none =>
      simp +decide [exportProp, hb, boolField, lookup_cons_ne, lookup_strField_ne,
        lookup_someStrField_ne, lookup_natField_ne, lookup_intField_ne,
        lookup_reqField_ne, lookup_condField_ne, lookup_condField_nil, lookup_strField_nil]
  | some b =>
      simp +decide [exportProp, hb, boolField, lookup_cons_ne, lookup_strField_ne,
        lookup_someStrField_ne, lookup_natField_ne, lookup_intField_ne,
        lookup_reqField_ne, lookup_condField_ne, lookup_cons_eq]

/-! ## Claim C5 -/

/-- C5 counterexample: a top-level property whose `content_media_type` holds
the empty string (producible by typing into and clearing the CMT field) is
exported with `"contentMediaType": ""` — the top-level exporter tests
`is_some()` (main.rs:1140), not emptiness — contradicting "omitted rather
than emitted as an empty string". -/
theorem c5_counterexample_empty_cmt_emitted :
    List.lookup "contentMediaType" (exportProp emptyCmtProp).2 = some (Json.str "")
    ∧ emptyCmtProp.core.content_media_type = some "" :=
  ⟨rfl, rfl⟩

/-- C5 amended: `description`, `$comment`, `pattern` and `format` are
omitted when empty for both top-level and nested properties, and
`contentMediaType` is omitted when empty for nested properties; but the
top-level `contentMediaType` is emitted whenever present, empty string
included. -/
theorem c5_empty_strings_omitted_except_top_cmt (p : Property) :
    List.lookup "description" (exportProp p).2 = strVal p.core.description
    ∧ List.lookup "pattern" (exportProp p).2 = strVal p.core.pattern
    ∧ List.lookup "format" (exportProp p).2 = strVal p.core.format
    ∧ List.lookup "$comment" (exportProp p).2 = strVal p.core.comment
    ∧ List.lookup "contentMediaType" (exportProp p).2
        = p.core.content_media_type.map Json.str
    ∧ List.lookup "description" (exportNestedPropObj p) = strVal p.core.description
    ∧ List.lookup "pattern" (exportNestedPropObj p) = strVal p.core.pattern
    ∧ List.lookup "format" (exportNestedPropObj p) = strVal p.core.format
    ∧ List.lookup "$comment" (exportNestedPropObj p) = strVal p.core.comment
    ∧ List.lookup "contentMediaType" (exportNestedPropObj p)
        = strVal p.core.content_media_type := by
  refine ⟨?_, ?_, ?_, ?_, ?_, ?_, ?_, ?_, ?_, ?_⟩
  · cases hd : p.core.description with
    | none =>
        simp +decide [exportProp, hd, strField_none, strVal, lookup_cons_ne,
          lookup_strField_ne, lookup_someStrField_ne, lookup_natField_ne,
          lookup_intField_ne, lookup_boolField_ne, lookup_reqField_ne,
          lookup_condField_ne, lookup_condField_nil, lookup_strField_nil]
    | some s =>
        by_cases hl : s.length > 0 <;>
          simp +decide [exportProp, hd, strField_some, strVal, hl, lookup_cons_ne,
            lookup_strField_ne, lookup_someStrField_ne, lookup_natField_ne,
            lookup_intField_ne, lookup_boolField_ne, lookup_reqField_ne,
            lookup_condField_ne, lookup_condField_nil, lookup_strField_nil, lookup_cons_eq]
  · cases hd : p.core.pattern with
    | none =>
        simp +decide [exportProp, hd, strField_none, strVal, lookup_cons_ne,
          lookup_strField_ne, lookup_someStrField_ne, lookup_natField_ne,
          lookup_intField_ne, lookup_boolField_ne, lookup_reqField_ne,
          lookup_condField_ne, lookup_condField_nil, lookup_strField_nil]
    | some s =>
        by_cases hl : s.length > 0 <;>
          simp +decide [exportProp, hd, strField_some, strVal, hl, lookup_cons_ne,
            lookup_strField_ne, lookup_someStrField_ne, lookup_natField_ne,
            lookup_intField_ne, lookup_boolField_ne, lookup_reqField_ne,
            lookup_condField_ne, lookup_condField_nil, lookup_strField_nil, lookup_cons_eq]
  · cases hd : p.core.format with
    | none =>
        simp +decide [exportProp, hd, strField_none, strVal, lookup_cons_ne,
          lookup_strField_ne, lookup_someStrField_ne, lookup_natField_ne,
          lookup_intField_ne, lookup_boolField_ne, lookup_reqField_ne,
          lookup_condField_ne, lookup_condField_nil, lookup_strField_nil]
    | some s =>
        by_cases hl : s.length > 0 <;>
          simp +decide [exportProp, hd, strField_some, strVal, hl, lookup_cons_ne,
            lookup_strField_ne, lookup_someStrField_ne, lookup_natField_ne,
            lookup_intField_ne, lookup_boolField_ne, lookup_reqField_ne,
            lookup_condField_ne, lookup_condField_nil, lookup_strField_nil, lookup_cons_eq]
  · cases hd : p.core.comment with
    | none =>
        simp +decide [exportProp, hd, strField_none, strVal, lookup_cons_ne,
          lookup_strField_ne, lookup_someStrField_ne, lookup_natField_ne,
          lookup_intField_ne, lookup_boolField_ne, lookup_reqField_ne,
          lookup_condField_ne, lookup_condField_nil, lookup_strField_nil]
    | some s =>
        by_cases hl : s.length > 0 <;>
          simp +decide [exportProp, hd, strField_some, strVal, hl, lookup_cons_ne,
            lookup_strField_ne, lookup_someStrField_ne, lookup_natField_ne,
            lookup_intField_ne, lookup_boolField_ne, lookup_reqField_ne,
            lookup_condField_ne, lookup_condField_nil, lookup_strField_nil, lookup_cons_eq]
  · cases hd : p.core.content_media_type with
    | none =>
        simp +decide [exportProp, hd, someStrField_none, lookup_cons_ne,
          lookup_strField_ne, lookup_natField_ne,
          lookup_intField_ne, lookup_boolField_ne, lookup_reqField_ne,
          lookup_condField_ne, lookup_condField_nil, lookup_strField_nil]
    | some s =>
        simp +decide [exportProp, hd, someStrField_some, lookup_cons_ne,
          lookup_strField_ne, lookup_natField_ne,
          lookup_intField_ne, lookup_boolField_ne, lookup_reqField_ne,
          lookup_condField_ne, lookup_cons_eq]
  · cases hd : p.core.description with
    | none =>
        simp +decide [exportNestedPropObj, hd, strField_none, strVal, lookup_cons_ne,
          lookup_strField_ne, lookup_natField_ne,
          lookup_intField_ne, lookup_boolField_ne,
          lookup_condField_ne, lookup_condField_nil, lookup_strField_nil]
    | some s =>
        by_cases hl : s.length > 0 <;>
          simp +decide [exportNestedPropObj, hd, strField_some, strVal, hl, lookup_cons_ne,
            lookup_strField_ne, lookup_natField_ne,
            lookup_intField_ne, lookup_boolField_ne,
            lookup_condField_ne, lookup_condField_nil, lookup_strField_nil, lookup_cons_eq]
  · cases hd : p.core.pattern with
    | none =>
        simp +decide [exportNestedPropObj, hd, strField_none, strVal, lookup_cons_ne,
          lookup_strField_ne, lookup_natField_ne,
          lookup_intField_ne, lookup_boolField_ne,
          lookup_condField_ne, lookup_condField_nil, lookup_strField_nil]
    | some s =>
        by_cases hl : s.length > 0 <;>
          simp +decide [exportNestedPropObj, hd, strField_some, strVal, hl, lookup_cons_ne,
            lookup_strField_ne, lookup_natField_ne,
            lookup_intField_ne, lookup_boolField_ne,
            lookup_condField_ne, lookup_condField_nil, lookup_strField_nil, lookup_cons_eq]
  · cases hd : p.core.format with
    | none =>
        simp +decide [exportNestedPropObj, hd, strField_none, strVal, lookup_cons_ne,
          lookup_strField_ne, lookup_natField_ne,
          lookup_intField_ne, lookup_boolField_ne,
          lookup_condField_ne, lookup_condField_nil, lookup_strField_nil]
    | some s =>
        by_cases hl : s.length > 0 <;>
          simp +decide [exportNestedPropObj, hd, strField_some, strVal, hl, lookup_cons_ne,
            lookup_strField_ne, lookup_natField_ne,
            lookup_intField_ne, lookup_boolField_ne,
            lookup_condField_ne, lookup_condField_nil, lookup_strField_nil, lookup_cons_eq]
  · cases hd : p.core.comment with
    | none =>
        simp +decide [exportNestedPropObj, hd, strField_none, strVal, lookup_cons_ne,
          lookup_strField_ne, lookup_natField_ne,
          lookup_intField_ne, lookup_boolField_ne,
          lookup_condField_ne, lookup_condField_nil, lookup_strField_nil]
    | some s =>
        by_cases hl : s.length > 0 <;>
          simp +decide [exportNestedPropObj, hd, strField_some, strVal, hl, lookup_cons_ne,
            lookup_strField_ne, lookup_natField_ne,
            lookup_intField_ne, lookup_boolField_ne,
            lookup_condField_ne, lookup_condField_nil, lookup_strField_nil, lookup_cons_eq]
  · cases hd : p.core.content_media_type with
    | none =>
        simp +decide [exportNestedPropObj, hd, strField_none, strVal, lookup_cons_ne,
          lookup_strField_ne, lookup_natField_ne,
          lookup_intField_ne, lookup_boolField_ne,
          lookup_condField_ne, lookup_condField_nil, lookup_strField_nil]
    | some s =>
        by_cases hl : s.length > 0 <;>
          simp +decide [exportNestedPropObj, hd, strField_some, strVal, hl, lookup_cons_ne,
            lookup_strField_ne, lookup_natField_ne,
            lookup_intField_ne, lookup_boolField_ne,
            lookup_condField_ne, lookup_condField_nil, lookup_strField_nil, lookup_cons_eq]

/-! ## Claim C6 -/

/-- C6 counterexample: importing an index whose sort value is `"desc"`
stores it verbatim, and the re-export emits `{"f":"desc"}` — the exported
sort value is not always `"asc"`. -/
theorem c6_counterexample_desc_roundtrip :
    (parseImportedJson initModel (some descSortJson)).map
        (fun m => (generateJsonObject m).json_object)
      = some [("d", Json.obj [("type", Json.str "object"), ("properties", Json.obj []),
          ("indices", Json.arr [Json.obj [("name", Json.str "i"),
            ("properties", Json.arr [Json.obj [("f", Json.str "desc")]])]]),
          ("additionalProperties", Json.bool false)])] :=
  rfl

/-- C6 amended: the exporter emits each index property as the single-entry
object `{field: order}` where `order` is the stored sort string verbatim;
the editor itself only ever creates the default sort `"asc"` (and has no
operation changing it), but an imported contract may carry any string,
which is then re-exported unchanged. -/
theorem c6_sort_emitted_verbatim (idx : Index) :
    List.lookup "properties" (exportIndexFields idx)
      = some (Json.arr (idx.properties.map fun t => Json.obj [(t.fst, Json.str t.snd)]))
    ∧ IndexProperties.default.snd = "asc" := by
  refine ⟨?_, rfl⟩
  dsimp only [exportIndexFields]
  split <;> rw [lookup_cons_ne (by decide), lookup_cons_eq]

/-! ## Claim C7 -/

/-- C7 counterexample: `Msg::Clear` does not destroy the document-type tree;
even from the initial state, the one default document type survives. -/
theorem c7_counterexample_clear_keeps_tree :
    (clear initModel).document_types = [DocumentType.default]
    ∧ (clear initModel).document_types.length = 1 :=
  ⟨rfl, rfl⟩

/-- C7 amended: `Msg::Clear` empties the JSON output, the imported text and
the validation-error list, but leaves `document_types` (and so the whole
tree) unchanged. -/
theorem c7_clear_resets_outputs_only (m : Model) :
    (clear m).json_object = []
    ∧ (clear m).imported_json = ""
    ∧ (clear m).error_messages = []
    ∧ (clear m).document_types = m.document_types :=
  ⟨rfl, rfl, rfl, rfl⟩

/-! ## Claim C9 -/

/-- C9 counterexample: importing `minLength: 4294967301` (= `2^32 + 5`)
stores `5` — the out-of-range value is truncated modulo `2^32`, not clamped
to zero as the claim states. -/
theorem c9_counterexample_truncation_not_clamping :
    (parseImportedJson initModel (some bigMinLengthJson)).map
        (fun m => m.document_types.map fun dt => dt.properties.map (·.core.min_length))
      = some [[some 5]]
    ∧ (5 : Nat) ≠ 0 :=
  ⟨rfl, by decide⟩

/-- C9 amended: each of the eight numeric fields is read via a 64-bit
extraction followed by a truncating 32-bit cast. Unsigned fields
(`minLength`, `maxLength`, `minItems`, `maxItems`, `minProperties`,
`maxProperties`) become `n mod 2^32` when the JSON integer `n` is in
`[0, 2^64)` and are left absent otherwise; signed fields (`minimum`,
`maximum`) become the twos-complement wrap of `n` into `[-2^31, 2^31)`
when `n ∈ [-2^63, 2^63)` and are left absent otherwise. In-range values are
preserved exactly; out-of-range ones wrap rather than clamp to zero. -/
theorem c9_numeric_fields_truncate (n : Int) :
    ((importDocumentType "d" (numericFieldsObj n)).map fun dt =>
        dt.properties.map fun p =>
          (p.core.min_length, p.core.max_length, p.core.min_items, p.core.max_items,
           p.core.min_properties, p.core.max_properties, p.core.minimum, p.core.maximum))
      = some [(importedU32 n, importedU32 n, importedU32 n, importedU32 n,
               importedU32 n, importedU32 n, importedI32 n, importedI32 n)]
    ∧ (∀ m : Nat, m < 2 ^ 32 → u32cast m = m)
    ∧ (∀ z : Int, -(2 ^ 31) ≤ z → z < 2 ^ 31 → i32cast z = z) := by
  refine ⟨?_, ?_, ?_⟩
  · by_cases hu : 0 ≤ n ∧ n < 2 ^ 64 <;> by_cases hi : -(2 ^ 63) ≤ n ∧ n < 2 ^ 63 <;>
      simp +decide [importDocumentType, importDocProps, importDocIndicesComment,
        importPropertyList, importProperty, importNestedList, importDataType,
        importU32, importI32, importStr, requiredContains, Json.asU64, Json.asI64,
        List.lookup, importedU32, importedI32, Property.core, hu, hi]
  · intro m hm
    simpa [u32cast] using Nat.mod_eq_of_lt hm
  · intro z h1 h2
    have h0 : (0 : Int) ≤ z + 2 ^ 31 := by omega
    have hlt : z + 2 ^ 31 < 2 ^ 32 := by omega
    simp only [i32cast]
    rw [Int.emod_eq_of_lt h0 hlt]
    omega

/-! ## Claim C8 -/

/-- C8: when top-level JSON parsing of the imported text fails (the
`unwrap_or_default` path of main.rs:1314, modelled by `parsed = none`),
`parse_imported_json` succeeds (no panic) and leaves the Contract empty:
no document types, empty JSON output, everything else untouched. -/
theorem c8_parse_failure_empty_state (m : Model) :
    parseImportedJson m none = some { m with document_types := [], json_object := [] } :=
  rfl

end DCC
